import Mathlib

/-!
# Verification of the DiscordWikiJS bot (src/app.js)

A shallow embedding of the logic of `src/app.js`: the wiki-index loader
(`fetchWikiPages`), the allowlist guard, the autocomplete search matcher, and
the interaction dispatcher.  JavaScript strings are modelled by Lean `String`,
with the JS operations `toLowerCase`, `includes` and length realised as
list-of-character functions (`strToLower`, `strIncludes`, `String.length`).
Asynchronous failure of the one external fetch is modelled by an explicit
`Except` outcome; the side effects of the dispatcher (replies, autocomplete
responses, log lines) are reified as an `Effect` inductive.
-/

namespace DiscordWikiJS

/-- JS `String.prototype.toLowerCase`, modelled character-pointwise. -/
def strToLower (s : String) : String := ⟨s.data.map Char.toLower⟩

/-- Substring test on character lists: `containsSub needle haystack` is true
iff `needle` occurs contiguously inside `haystack` (JS `includes`). -/
def containsSub (needle : List Char) : List Char → Bool
  | [] => needle.isPrefixOf []
  | c :: rest => needle.isPrefixOf (c :: rest) || containsSub needle rest

/-- JS `s.includes(sub)`. -/
def strIncludes (s sub : String) : Bool := containsSub sub.data s.data

/-- Whitespace trimming as the spec uses the word "trim" (the source itself
never trims): drop whitespace from both ends. -/
def specTrim (s : String) : String :=
  ⟨(((s.data.dropWhile Char.isWhitespace).reverse.dropWhile Char.isWhitespace).reverse)⟩

/-- A raw page as returned by the GraphQL content API
(fields requested at src/app.js lines 18–25). -/
structure RawPage where
  id : String
  title : String
  path : String
  tags : List String
  isPrivate : Bool
deriving DecidableEq, Repr

/-- A normalized page of the in-memory index (src/app.js lines 32–37). -/
structure Page where
  title : String
  path : String
  lowercaseTitle : String
  tags : List String
deriving DecidableEq, Repr

/-- The per-page normalization in the loader's `.map` (src/app.js 32–37). -/
def mkPage (page : RawPage) : Page :=
  { title := page.title
    path := page.path
    lowercaseTitle := strToLower page.title
    tags := page.tags.map strToLower }

/-- The pure part of `fetchWikiPages` on a successful response
(src/app.js 30–37): filter out private pages, then normalize. -/
def processPages (list : List RawPage) : List Page :=
  (list.filter (fun page => !page.isPrivate)).map mkPage

/-- `fetchWikiPages` (src/app.js 13–42): the network call either yields a page
listing or fails; the `catch` branch returns `[]`. -/
def fetchWikiPages (outcome : Except String (List RawPage)) : List Page :=
  match outcome with
  | .ok list => processPages list
  | .error _ => []

/-- An autocomplete candidate `{name, value}` (src/app.js 125–128, 139–142). -/
structure Candidate where
  name : String
  value : String
deriving DecidableEq, Repr

/-- The "type more" sentinel candidate (src/app.js 125–128). -/
def startTypingCandidate : Candidate :=
  { name := "Start typing to search wiki pages (min 3 characters)"
    value := "start_typing" }

/-- The "no results" sentinel candidate (src/app.js 146–149). -/
def noResultsCandidate : Candidate :=
  { name := "No wiki pages found. Try a different search."
    value := "no_results" }

/-- The match predicate of the autocomplete filter (src/app.js 134–137). -/
def matchesQuery (focusedValue : String) (page : Page) : Bool :=
  strIncludes page.lowercaseTitle (strToLower focusedValue) ||
    page.tags.any fun tag => strIncludes (strToLower tag) (strToLower focusedValue)

/-- The search matcher: the whole autocomplete branch of the
`interactionCreate` handler (src/app.js 120–154), as the list of candidates
passed to `interaction.respond`. -/
def search (wikiPages : List Page) (focusedValue : String) : List Candidate :=
  if focusedValue.length < 3 then
    [startTypingCandidate]
  else
    let filtered :=
      ((wikiPages.filter fun page =>
          strIncludes page.lowercaseTitle (strToLower focusedValue) ||
            page.tags.any fun tag =>
              strIncludes (strToLower tag) (strToLower focusedValue)).take 25).map
        fun page => { name := page.title, value := page.path }
    if filtered.length = 0 then [noResultsCandidate] else filtered

/-- The allowlist guard: `ALLOWED_GUILDS.includes(id)` (src/app.js 106). -/
def isAllowed (communityId : String) (allowlist : List String) : Bool :=
  allowlist.contains communityId

/-- A guild as the dispatcher sees it: the allowlist check reads its `id`
(src/app.js 106) and the unauthorized-branch catch reads its `name`
(src/app.js 114). -/
structure Guild where
  id : String
  name : String
deriving DecidableEq, Repr

/-- `!interaction.guild || !ALLOWED_GUILDS.includes(interaction.guild.id)`
negated: the interaction is authorized iff a guild is present and allowed. -/
def authorizedGuild (guild : Option Guild) (allowlist : List String) : Bool :=
  match guild with
  | none => false
  | some g => isAllowed g.id allowlist

/-- A reified side effect of the interaction handler. -/
inductive Effect where
  | reply (content : String) (ephemeral : Bool)
  | respond (candidates : List Candidate)
  | logError (msg : String)
deriving DecidableEq, Repr

/-- An incoming interaction: the three shapes the handler distinguishes via
`isAutocomplete()` / `isChatInputCommand()`; the guild is optional because
`interaction.guild` may be null. -/
inductive Interaction where
  | autocomplete (guild : Option Guild) (focusedValue : String)
  | chatCommand (guild : Option Guild) (commandName : String) (query : String)
  | other (guild : Option Guild)
deriving DecidableEq, Repr

def Interaction.guild : Interaction → Option Guild
  | .autocomplete g _ => g
  | .chatCommand g _ _ => g
  | .other g => g

def Interaction.isChatInputCommand : Interaction → Bool
  | .chatCommand _ _ _ => true
  | _ => false

def Interaction.isAutocomplete : Interaction → Bool
  | .autocomplete _ _ => true
  | _ => false

/-- The `wiki` command branch (src/app.js 159–176): sentinel guard, page
lookup by `path`, and the reply with `**title**: baseUrl/path`. -/
def handleWikiCommand (wikiPages : List Page) (baseUrl selectedPage : String) : Effect :=
  if selectedPage = "start_typing" ∨ selectedPage = "no_results" then
    .reply "Please select a valid wiki page." true
  else
    let pageInfo := wikiPages.find? fun page => page.path == selectedPage
    let pageTitle := match pageInfo with
      | some page => page.title
      | none => "Unknown Page"
    .reply ("**" ++ pageTitle ++ "**: " ++ (baseUrl ++ "/" ++ selectedPage)) false

/-- The whole `interactionCreate` handler (src/app.js 105–179): `.ok` with the
list of effects it performs, or `.error` with the exception that escapes the
handler.  `replyFails` models whether the unauthorized-branch
`interaction.reply` call throws.  When it does, the `catch` (src/app.js 114)
logs a template literal that evaluates `interaction.guild.name`: with a guild
present this is a log line, but with `interaction.guild` null the property
access itself throws a `TypeError` out of the `catch`, and nothing further up
catches it. -/
def dispatch (allowlist : List String) (wikiPages : List Page) (baseUrl : String)
    (replyFails : Bool) (i : Interaction) : Except String (List Effect) :=
  if !authorizedGuild i.guild allowlist then
    if i.isChatInputCommand || i.isAutocomplete then
      if replyFails then
        match i.guild with
        | some g => .ok [.logError ("Could not send unauthorized message in " ++ g.name)]
        | none => .error "TypeError: Cannot read properties of null (reading 'name')"
      else
        .ok [.reply "This bot is not authorized to operate in this server." true]
    else .ok []
  else
    match i with
    | .autocomplete _ focusedValue => .ok [.respond (search wikiPages focusedValue)]
    | .chatCommand _ commandName query =>
        if commandName = "wiki" then .ok [handleWikiCommand wikiPages baseUrl query]
        else .ok []
    | .other _ => .ok []

/-! ## Concrete sample data used by the witnesses. -/

def samplePage : Page :=
  { title := "Setup Guide", path := "setup", lowercaseTitle := "setup guide"
    tags := ["install"] }

def sampleRaw : List RawPage :=
  [ { id := "1", title := "Setup Guide", path := "setup", tags := ["Install"]
      isPrivate := false }
  , { id := "2", title := "Secret Page", path := "secret", tags := ["Hidden"]
      isPrivate := true } ]

def sentinelPathPage : Page :=
  { title := "Evil", path := "start_typing", lowercaseTitle := "evil", tags := [] }

def sampleGuild : Guild := { id := "Guild2", name := "Second Guild" }

def manyPages : List Page := List.replicate 26 samplePage

/-! ## Helper lemmas. -/

theorem containsSub_iff (needle haystack : List Char) :
    containsSub needle haystack = true ↔ needle <:+: haystack := by
  induction haystack with
  | nil => simp [containsSub]
  | cons c rest ih =>
    simp [containsSub, List.infix_cons_iff, ih]

theorem strIncludes_iff (s sub : String) :
    strIncludes s sub = true ↔ sub.data <:+: s.data :=
  containsSub_iff sub.data s.data

theorem length_specTrim_le (s : String) : (specTrim s).length ≤ s.length := by
  show (((s.data.dropWhile Char.isWhitespace).reverse.dropWhile
      Char.isWhitespace).reverse).length ≤ s.data.length
  rw [List.length_reverse]
  calc ((s.data.dropWhile Char.isWhitespace).reverse.dropWhile Char.isWhitespace).length
      ≤ (s.data.dropWhile Char.isWhitespace).reverse.length :=
        (List.dropWhile_sublist _).length_le
    _ = (s.data.dropWhile Char.isWhitespace).length := List.length_reverse _
    _ ≤ s.data.length := (List.dropWhile_sublist _).length_le

theorem find?_path_eq (pages : List Page) (p : Page) (v : String)
    (hp : p ∈ pages) (hpath : p.path = v)
    (hnd : (pages.map Page.path).Nodup) :
    pages.find? (fun page => page.path == v) = some p := by
  induction pages with
  | nil => cases hp
  | cons a rest ih =>
    rw [List.map_cons, List.nodup_cons] at hnd
    by_cases ha : a.path = v
    · have hfind : (a :: rest).find? (fun page => page.path == v) = some a := by
        rw [List.find?_cons_of_pos]
        simp [ha]
      rcases List.mem_cons.mp hp with rfl | hmem
      · exact hfind
      · have : p.path ∈ List.map Page.path rest := List.mem_map_of_mem Page.path hmem
        rw [hpath, ← ha] at this
        exact absurd this hnd.1
    · have hpa : p ≠ a := fun h => ha (h ▸ hpath)
      have hmem : p ∈ rest := (List.mem_cons.mp hp).resolve_left hpa
      rw [List.find?_cons_of_neg]
      · exact ih hmem hnd.2
      · simp [ha]

/-! ## Claims. -/

/-- C1, counterexample: the claim predicates the `start_typing` sentinel on the
TRIMMED length of the query, but the source (src/app.js 123) tests the raw
length.  For `q = "a   "` the trimmed length is 1 < 3, yet `search` does not
return the sentinel (it runs the matcher and, on the empty index, returns the
`no_results` sentinel instead). -/
theorem c1_counterexample :
    (specTrim "a   ").length < 3 ∧ search [] "a   " ≠ [startTypingCandidate] := by
  decide

/-- C1 (amended): for every index and every raw query `q`, if the length of
`q` itself (no trimming is performed by the code) is fewer than 3 characters
then `search` returns exactly one candidate, the `start_typing` sentinel,
regardless of index contents. -/
theorem c1_short_query_sentinel (index : List Page) (q : String)
    (h : q.length < 3) :
    search index q = [startTypingCandidate] := by
  unfold search
  rw [if_pos h]

/-- C1, witness: a concrete short query on a non-empty index. -/
theorem c1_witness :
    "se".length < 3 ∧ search [samplePage] "se" = [startTypingCandidate] :=
  ⟨by decide, c1_short_query_sentinel [samplePage] "se" (by decide)⟩

/-- C2: every page of the index built from a fetched listing originates from a
non-private raw page; its `lowercaseTitle` is the lower-cased `title` and its
tags are the lower-cased raw tags. -/
theorem c2_loader_normalization (raw : List RawPage) (p : Page)
    (hp : p ∈ processPages raw) :
    (∃ r, r ∈ raw ∧ r.isPrivate = false ∧ p.title = r.title ∧ p.path = r.path ∧
        p.tags = r.tags.map strToLower) ∧
    p.lowercaseTitle = strToLower p.title := by
  unfold processPages at hp
  rcases List.mem_map.mp hp with ⟨r, hr, rfl⟩
  rcases List.mem_filter.mp hr with ⟨hrmem, hrpriv⟩
  refine ⟨⟨r, hrmem, ?_, rfl, rfl, rfl⟩, rfl⟩
  simpa using hrpriv

/-- C2, witness: the sample listing (one public, one private page). -/
theorem c2_witness :
    (∃ r, r ∈ sampleRaw ∧ r.isPrivate = false ∧
        (mkPage (sampleRaw.get ⟨0, by decide⟩)).title = r.title ∧
        (mkPage (sampleRaw.get ⟨0, by decide⟩)).path = r.path ∧
        (mkPage (sampleRaw.get ⟨0, by decide⟩)).tags = r.tags.map strToLower) ∧
    (mkPage (sampleRaw.get ⟨0, by decide⟩)).lowercaseTitle =
      strToLower (mkPage (sampleRaw.get ⟨0, by decide⟩)).title :=
  c2_loader_normalization sampleRaw (mkPage (sampleRaw.get ⟨0, by decide⟩))
    (by decide)

/-- C3: the loader is a total function into plain lists — no exception
propagates — and every failing fetch outcome yields the empty index, while a
successful one yields the processed listing. -/
theorem c3_fetch_never_raises (e : String) (l : List RawPage) :
    fetchWikiPages (Except.error e) = [] ∧
    fetchWikiPages (Except.ok l) = processPages l :=
  ⟨rfl, rfl⟩

/-- C6: the allowlist guard is a pure membership test — it returns `true`
exactly on members — and on the empty allowlist it rejects every community
identifier (fail-closed). -/
theorem c6_allowlist_membership (id : String) (l : List String) :
    isAllowed id [] = false ∧ (isAllowed id l = true ↔ id ∈ l) := by
  refine ⟨rfl, ?_⟩
  simp [isAllowed]

theorem matchesQuery_iff (q : String) (p : Page) :
    matchesQuery q p = true ↔
      ((strToLower q).data <:+: p.lowercaseTitle.data ∨
        ∃ t, t ∈ p.tags ∧ (strToLower q).data <:+: (strToLower t).data) := by
  simp [matchesQuery, strIncludes_iff]

theorem search_eq_of_three_le (index : List Page) (q : String) (hq : 3 ≤ q.length) :
    search index q =
      if (((index.filter (matchesQuery q)).take 25).map
          (fun page => ({ name := page.title, value := page.path } : Candidate))).length = 0
      then [noResultsCandidate]
      else ((index.filter (matchesQuery q)).take 25).map
          fun page => { name := page.title, value := page.path } := by
  unfold search
  rw [if_neg (Nat.not_lt.mpr hq)]
  rfl

theorem search_of_filter_nil (index : List Page) (q : String) (hq : 3 ≤ q.length)
    (hfil : index.filter (matchesQuery q) = []) :
    search index q = [noResultsCandidate] := by
  rw [search_eq_of_three_le index q hq, hfil]
  rfl

theorem search_of_filter_ne_nil (index : List Page) (q : String) (hq : 3 ≤ q.length)
    (hfil : index.filter (matchesQuery q) ≠ []) :
    search index q =
      ((index.filter (matchesQuery q)).take 25).map
        fun page => { name := page.title, value := page.path } := by
  rw [search_eq_of_three_le index q hq, if_neg]
  simp only [List.length_map, List.length_take, ne_eq]
  have hne : (index.filter (matchesQuery q)).length ≠ 0 := fun h0 =>
    hfil (List.length_eq_zero.mp h0)
  omega

/-- C4: for a query whose trimmed length is at least 3, a page passes the
filter iff the lower-cased query occurs in its `lowercaseTitle` or in the
lower-casing of one of its tags; each surviving page becomes a candidate with
`value` the page's `path` and `name` the page's `title`; and when no page
matches, `search` returns exactly the `no_results` sentinel. -/
theorem c4_match_semantics (index : List Page) (q : String)
    (h : 3 ≤ (specTrim q).length) :
    (∀ p, p ∈ index.filter (matchesQuery q) ↔
        p ∈ index ∧ ((strToLower q).data <:+: p.lowercaseTitle.data ∨
          ∃ t, t ∈ p.tags ∧ (strToLower q).data <:+: (strToLower t).data)) ∧
    (index.filter (matchesQuery q) = [] → search index q = [noResultsCandidate]) ∧
    (index.filter (matchesQuery q) ≠ [] →
      search index q =
        ((index.filter (matchesQuery q)).take 25).map
          fun page => { name := page.title, value := page.path }) := by
  have hq : 3 ≤ q.length := le_trans h (length_specTrim_le q)
  refine ⟨?_, search_of_filter_nil index q hq, search_of_filter_ne_nil index q hq⟩
  intro p
  rw [List.mem_filter, matchesQuery_iff]

/-- C4, witness: the sample index and the query `"set"`. -/
theorem c4_witness :
    3 ≤ (specTrim "set").length ∧
    ((∀ p, p ∈ [samplePage].filter (matchesQuery "set") ↔
        p ∈ [samplePage] ∧ ((strToLower "set").data <:+: p.lowercaseTitle.data ∨
          ∃ t, t ∈ p.tags ∧ (strToLower "set").data <:+: (strToLower t).data)) ∧
    ([samplePage].filter (matchesQuery "set") = [] →
      search [samplePage] "set" = [noResultsCandidate]) ∧
    ([samplePage].filter (matchesQuery "set") ≠ [] →
      search [samplePage] "set" =
        (([samplePage].filter (matchesQuery "set")).take 25).map
          fun page => { name := page.title, value := page.path })) :=
  ⟨by decide, c4_match_semantics [samplePage] "set" (by decide)⟩

/-- C5: `search` never returns more than 25 candidates, and when the query
reaches the matcher (length at least 3) and more than 25 pages match, the
result is exactly the first 25 matching pages in index order, mapped to
candidates with no reordering. -/
theorem c5_cap_25 (index : List Page) (q : String) :
    (search index q).length ≤ 25 ∧
    (3 ≤ q.length → 25 < (index.filter (matchesQuery q)).length →
      search index q =
        ((index.filter (matchesQuery q)).take 25).map
          fun page => { name := page.title, value := page.path }) := by
  constructor
  · by_cases hq : q.length < 3
    · unfold search
      rw [if_pos hq]
      norm_num
    · rw [search_eq_of_three_le index q (Nat.not_lt.mp hq)]
      split
      · norm_num
      · simp only [List.length_map, List.length_take]
        omega
  · intro hq hgt
    refine search_of_filter_ne_nil index q hq fun hnil => ?_
    rw [hnil] at hgt
    simp at hgt

/-- C5, witness: 26 matching pages; the result is the first 25 in order. -/
theorem c5_witness :
    3 ≤ ("set" : String).length ∧
    25 < (manyPages.filter (matchesQuery "set")).length ∧
    (search manyPages "set").length ≤ 25 ∧
    search manyPages "set" =
      ((manyPages.filter (matchesQuery "set")).take 25).map
        fun page => { name := page.title, value := page.path } :=
  ⟨by decide, by decide, (c5_cap_25 manyPages "set").1,
    (c5_cap_25 manyPages "set").2 (by decide) (by decide)⟩

/-- C7: when the selected query value is a reserved sentinel, the command
branch replies with the "select a valid page" prompt, for every index and
base URL — in particular even when the index holds a page whose `path` equals
the sentinel, no lookup result influences the reply. -/
theorem c7_sentinel_guard (pages : List Page) (baseUrl v : String)
    (h : v = "start_typing" ∨ v = "no_results") :
    handleWikiCommand pages baseUrl v = .reply "Please select a valid wiki page." true := by
  unfold handleWikiCommand
  rw [if_pos h]

/-- C7, witness: the index contains a page with path `start_typing`, yet the
reply is the fixed prompt. -/
theorem c7_witness :
    ("start_typing" = "start_typing" ∨ "start_typing" = "no_results") ∧
    handleWikiCommand [sentinelPathPage] "https://wiki.example" "start_typing" =
      .reply "Please select a valid wiki page." true :=
  ⟨Or.inl rfl,
    c7_sentinel_guard [sentinelPathPage] "https://wiki.example" "start_typing" (Or.inl rfl)⟩

/-- C8: for a non-sentinel selected value `v`, if a page of the index has path
`v` (paths being unique), the reply carries that page's title and the URL
`baseUrl ++ "/" ++ v`; if no page has path `v`, the reply carries the
placeholder title `Unknown Page` and the same URL — the reply has the same
form either way. -/
theorem c8_page_lookup_reply (pages : List Page) (baseUrl v : String)
    (hs : v ≠ "start_typing") (hn : v ≠ "no_results") :
    (∀ p, p ∈ pages → p.path = v → (pages.map Page.path).Nodup →
        handleWikiCommand pages baseUrl v =
          .reply ("**" ++ p.title ++ "**: " ++ (baseUrl ++ "/" ++ v)) false) ∧
    ((∀ p, p ∈ pages → p.path ≠ v) →
        handleWikiCommand pages baseUrl v =
          .reply ("**" ++ "Unknown Page" ++ "**: " ++ (baseUrl ++ "/" ++ v)) false) := by
  have hcond : ¬(v = "start_typing" ∨ v = "no_results") := by tauto
  constructor
  · intro p hp hpath hnd
    unfold handleWikiCommand
    rw [if_neg hcond, find?_path_eq pages p v hp hpath hnd]
  · intro hnone
    have hfind : pages.find? (fun page => page.path == v) = none := by
      rw [List.find?_eq_none]
      intro x hx
      simp [hnone x hx]
    unfold handleWikiCommand
    rw [if_neg hcond, hfind]

/-- C8, witness: a found path and a missing path on the sample index. -/
theorem c8_witness :
    handleWikiCommand [samplePage] "https://wiki.example" "setup" =
      .reply ("**" ++ "Setup Guide" ++ "**: " ++ ("https://wiki.example" ++ "/" ++ "setup"))
        false ∧
    handleWikiCommand [samplePage] "https://wiki.example" "ghost" =
      .reply ("**" ++ "Unknown Page" ++ "**: " ++ ("https://wiki.example" ++ "/" ++ "ghost"))
        false :=
  ⟨(c8_page_lookup_reply [samplePage] "https://wiki.example" "setup" (by decide)
      (by decide)).1 samplePage (by decide) rfl (by decide),
   (c8_page_lookup_reply [samplePage] "https://wiki.example" "ghost" (by decide)
      (by decide)).2 (by decide)⟩

/-- C9, counterexample: the claim's "silently drops (log only, no exception
escapes) if that reply itself fails" is false when the community is absent:
with `interaction.guild` null and the unauthorized reply throwing, the `catch`
at src/app.js 114 evaluates `interaction.guild.name` on null, so a `TypeError`
escapes the handler instead of a log-only drop. -/
theorem c9_counterexample :
    authorizedGuild (Interaction.chatCommand none "wiki" "setup").guild ["Guild1"] = false ∧
    dispatch ["Guild1"] [samplePage] "https://wiki.example" true
        (.chatCommand none "wiki" "setup") =
      .error "TypeError: Cannot read properties of null (reading 'name')" :=
  ⟨rfl, rfl⟩

/-- C9 (amended): on an unauthorized interaction (guild absent or not
allowlisted) the dispatcher's outcome does not depend on the wiki index at all
(so it never invokes the search matcher and never performs a page lookup) and
it never emits an autocomplete response; for commands and autocompletes it
replies with the fixed denial message, and when that reply itself fails it
drops with only a log line if a guild is present — but when the guild is
absent the failure-logging line itself throws and that `TypeError` escapes
the handler. -/
theorem c9_unauthorized_no_search (al : List String) (pages pages2 : List Page)
    (baseUrl : String) (rf : Bool) (i : Interaction)
    (h : authorizedGuild i.guild al = false) :
    dispatch al pages baseUrl rf i = dispatch al pages2 baseUrl rf i ∧
    (rf = false → (i.isChatInputCommand || i.isAutocomplete) = true →
      dispatch al pages baseUrl rf i =
        .ok [Effect.reply "This bot is not authorized to operate in this server." true]) ∧
    (∀ g, rf = true → i.guild = some g →
      (i.isChatInputCommand || i.isAutocomplete) = true →
      dispatch al pages baseUrl rf i =
        .ok [Effect.logError ("Could not send unauthorized message in " ++ g.name)]) ∧
    (rf = true → i.guild = none →
      (i.isChatInputCommand || i.isAutocomplete) = true →
      dispatch al pages baseUrl rf i =
        .error "TypeError: Cannot read properties of null (reading 'name')") ∧
    (∀ effects cs, dispatch al pages baseUrl rf i = .ok effects →
      Effect.respond cs ∉ effects) := by
  have hb : (!authorizedGuild i.guild al) = true := by rw [h]; rfl
  refine ⟨?_, ?_, ?_, ?_, ?_⟩
  · unfold dispatch
    rw [if_pos hb, if_pos hb]
  · intro hrf hci
    subst hrf
    unfold dispatch
    rw [if_pos hb, if_pos hci, if_neg Bool.false_ne_true]
  · intro g hrf hg hci
    subst hrf
    unfold dispatch
    rw [if_pos hb, if_pos hci, if_pos rfl, hg]
  · intro hrf hg hci
    subst hrf
    unfold dispatch
    rw [if_pos hb, if_pos hci, if_pos rfl, hg]
  · intro effects cs heq
    unfold dispatch at heq
    rw [if_pos hb] at heq
    by_cases hci : (i.isChatInputCommand || i.isAutocomplete) = true
    · rw [if_pos hci] at heq
      by_cases hrf : rf = true
      · rw [if_pos hrf] at heq
        cases hg : i.guild with
        | none =>
            rw [hg] at heq
            simp at heq
        | some g =>
            rw [hg] at heq
            simp only [Except.ok.injEq] at heq
            subst heq
            simp
      · rw [if_neg hrf] at heq
        simp only [Except.ok.injEq] at heq
        subst heq
        simp
    · rw [if_neg hci] at heq
      simp only [Except.ok.injEq] at heq
      subst heq
      simp

/-- C9, witness: a command from a present but non-allowlisted guild whose
denial reply fails: the handler drops with only the log line (carrying the
guild's name), and its outcome is independent of the index. -/
theorem c9_witness :
    authorizedGuild (Interaction.chatCommand (some sampleGuild) "wiki" "setup").guild
        ["Guild1"] = false ∧
    dispatch ["Guild1"] [samplePage] "https://wiki.example" true
        (.chatCommand (some sampleGuild) "wiki" "setup") =
      .ok [Effect.logError ("Could not send unauthorized message in " ++ sampleGuild.name)] ∧
    dispatch ["Guild1"] [samplePage] "https://wiki.example" true
        (.chatCommand (some sampleGuild) "wiki" "setup") =
      dispatch ["Guild1"] [] "https://wiki.example" true
        (.chatCommand (some sampleGuild) "wiki" "setup") :=
  ⟨by decide,
   (c9_unauthorized_no_search ["Guild1"] [samplePage] [] "https://wiki.example" true
      (.chatCommand (some sampleGuild) "wiki" "setup") (by decide)).2.2.1 sampleGuild
      rfl rfl rfl,
   (c9_unauthorized_no_search ["Guild1"] [samplePage] [] "https://wiki.example" true
      (.chatCommand (some sampleGuild) "wiki" "setup") (by decide)).1⟩

/-- C10: search results are invariant under the letter case of the query:
queries of equal length with equal lower-casings produce identical results,
because the query is lower-cased before every title and tag comparison. -/
theorem c10_case_invariance (index : List Page) (q1 q2 : String)
    (hlen : q1.length = q2.length) (hlow : strToLower q1 = strToLower q2) :
    search index q1 = search index q2 := by
  unfold search
  rw [hlen]
  simp only [hlow]

/-- C10, witness: `"SET"` and `"set"` give the same candidates. -/
theorem c10_witness :
    ("SET" : String).length = ("set" : String).length ∧
    strToLower "SET" = strToLower "set" ∧
    search [samplePage] "SET" = search [samplePage] "set" :=
  ⟨by decide, by decide, c10_case_invariance [samplePage] "SET" "set" (by decide) (by decide)⟩

end DiscordWikiJS
